import Mathlib

/-!
Verification of the bibliographic resource-discovery crawler
(`src/bib/download_figures.py` and `src/bib/download_fulltext.py`).

The Python code is shallowly embedded: the HTTP client, the HTML parser
(BeautifulSoup) and `urljoin`/`urlparse` are external collaborators, so they
appear as an explicit environment (`Bib.Env`) of functions; the repository's
own orchestration code (fetch classification, link discovery, image
extraction, the frontier loop, trace building, file writing) is translated
function by function.  Python string operations used by the code are modelled
over `List Char` with structural recursion so that every definition evaluates
inside the kernel.
-/

namespace Bib

/-- Does the second char list start with the first one? -/
def startsWithChars : List Char → List Char → Bool
  | [], _ => true
  | _ :: _, [] => false
  | p :: ps, s :: ss => p == s && startsWithChars ps ss

/-- Does the second char list contain the first as a contiguous sublist? -/
def hasSubChars (pat : List Char) : List Char → Bool
  | [] => startsWithChars pat []
  | s :: ss => startsWithChars pat (s :: ss) || hasSubChars pat ss

/-- Python's `pat in s` substring test. -/
def strContains (s pat : String) : Bool :=
  hasSubChars pat.data s.data

/-- Python's `str.lower()` (ASCII is all the crawler needs). -/
def lowerStr (s : String) : String :=
  ⟨s.data.map Char.toLower⟩

/-- One step of `str.replace`, with explicit fuel so recursion is structural. -/
def replaceChars (pat rep : List Char) : Nat → List Char → List Char
  | 0, s => s
  | _ + 1, [] => []
  | n + 1, c :: cs =>
    if pat ≠ [] ∧ startsWithChars pat (c :: cs) then
      rep ++ replaceChars pat rep n (List.drop (pat.length - 1) cs)
    else
      c :: replaceChars pat rep n cs

/-- Python's `str.replace(pat, rep)` (all occurrences, left to right). -/
def strReplace (s pat rep : String) : String :=
  ⟨replaceChars pat.data rep.data s.data.length s.data⟩

/-- Whitespace recognizer for `str.strip()`. -/
def isSpaceChar (c : Char) : Bool :=
  c == ' ' || c == '\t' || c == '\n' || c == '\r'

/-- Python's `str.strip()`. -/
def stripStr (s : String) : String :=
  ⟨(((s.data.dropWhile isSpaceChar).reverse.dropWhile isSpaceChar)).reverse⟩

/-- Python truthiness of an optional string: `None` and `""` are falsy. -/
def pyFalsy : Option String → Bool
  | none => true
  | some s => s == ""

/-- Python truthiness, positive form. -/
def pyTruthy (o : Option String) : Bool :=
  !(pyFalsy o)

/-- Python's `a or b` on optional strings. -/
def pyOrOpt (a b : Option String) : Option String :=
  if pyFalsy a then b else a

/-- Python's `a or d` where `d` is a plain string. -/
def pyOrD (a : Option String) (d : String) : String :=
  match a with
  | none => d
  | some s => if s == "" then d else s

/-- Order-preserving de-duplication keeping first occurrences: Python's
`dict.fromkeys` / manual seen-set idiom used in both crawler files. -/
def dedupFirstAux (seen : List String) : List String → List String
  | [] => []
  | u :: rest =>
    if u ∈ seen then dedupFirstAux seen rest
    else u :: dedupFirstAux (u :: seen) rest

/-- De-duplicate while preserving first-seen order. -/
def dedupFirst (l : List String) : List String :=
  dedupFirstAux [] l

/-- Models `urllib.parse.urlparse(url).netloc` for `scheme://host/path`
URLs: the text after the first `://` up to the next `/` (empty when the URL
has no scheme separator). -/
def netlocAux : List Char → List Char
  | [] => []
  | c :: rest =>
    if startsWithChars (String.data "://") (c :: rest) then
      (List.drop 2 rest).takeWhile (fun d => d != '/')
    else
      netlocAux rest

/-- Host part of a URL, as the crawler obtains it from `urlparse`. -/
def netloc (url : String) : String :=
  ⟨netlocAux url.data⟩

/-- One parsed `<img>` element: the attributes the crawler reads. -/
structure Img where
  data_src : Option String
  src : Option String
  alt : Option String
  title : Option String
deriving DecidableEq, Repr

/-- The view of a parsed HTML document that the crawler code queries through
BeautifulSoup (an external collaborator): images inside `<figure>` elements,
images inside containers matched by a CSS selector, all images, all anchor
hrefs, the href of the first `a.docsum-title` (outer `Option` is element
presence, inner is the attribute), and the texts used by the full-text
extractor. -/
structure Soup where
  figure_imgs : List Img
  select_imgs : String → List Img
  all_imgs : List Img
  hrefs : List String
  docsum_title_href : Option (Option String)
  main_content : Option String
  article : Option String
  full_text : String

/-- A soup with nothing in it. -/
def emptySoup : Soup :=
  ⟨[], fun _ => [], [], [], none, none, none, ""⟩

/-- Outcome of one `requests.get` call: either a raised transport exception
or a response carrying status code, final (post-redirect) URL, the
`Content-Type` header (with `""` standing for a missing header, matching
`headers.get("Content-Type", "")`), and the payload (standing for both
`resp.text` and `resp.content`). -/
inductive HttpReply where
  | exn (reason : String)
  | resp (status : Nat) (finalUrl : String) (contentType : String) (body : String)
deriving DecidableEq, Repr

/-- The external collaborators: the HTTP client, BeautifulSoup, and
`requests.compat.urljoin`. -/
structure Env where
  net : String → HttpReply
  parse : String → Soup
  urljoin : String → String → String

/-- A concrete `urljoin` stub for witness environments: absolute URLs pass
through, anything else is appended to the base. -/
def urljoinModel (base rel : String) : String :=
  if strContains rel "://" then rel else base ++ rel

/-- A bibliography entry as the crawlers read it: `fields.get("doi")` and
`fields.get("pmcid")`. -/
structure Entry where
  doi : Option String
  pmcid : Option String
deriving DecidableEq, Repr

namespace DF

/-!  Embedding of `src/bib/download_figures.py`. -/

/-- Embeds `fetch_html` (download_figures.py, lines 24-45): returns
`(resp.url, resp.text, ctype)` on a 200 HTML response and
`(None, None, None)` on an exception, a non-200 status, or a non-HTML
content type. -/
def fetch_html (env : Env) (url : String) :
    Option String × Option String × Option String :=
  match env.net url with
  | HttpReply.exn _ => (none, none, none)
  | HttpReply.resp status finalUrl contentType body =>
    let ctype := lowerStr contentType
    if status ≠ 200 then (none, none, none)
    else if strContains ctype "html" = false then (none, none, none)
    else (some finalUrl, some body, some ctype)

/-- The truthy source of an `<img>`:
`src = img.get("data-src") or img.get("src"); if src: ...`. -/
def img_src (img : Img) : Option String :=
  let s := pyOrOpt img.data_src img.src
  if pyFalsy s then none else s

/-- The selector list of extraction strategy 2. -/
def figSelectors : List String :=
  ["div.figures", "div.figure", "div.fig", "li.fig", "li.figure"]

/-- The alt/title test of extraction strategy 3:
`any(tok in alt or tok in title for tok in ("fig", "figure"))`. -/
def fig_alt_title (img : Img) : Bool :=
  let alt := lowerStr (img.alt.getD "")
  let title := lowerStr (img.title.getD "")
  (strContains alt "fig" || strContains title "fig")
    || (strContains alt "figure" || strContains title "figure")

/-- Embeds `extract_img_urls_from_html` (lines 48-88): images inside `<figure>`,
then images inside the known figure-container selectors, then any image
whose alt/title mentions fig, each resolved against the base URL, deduped
preserving order. -/
def extract_img_urls_from_html (env : Env) (base_url : String) (html : String) :
    List String :=
  let soup := env.parse html
  let l1 := (soup.figure_imgs.filterMap img_src).map (env.urljoin base_url)
  let l2 := ((figSelectors.map
      (fun sel => (soup.select_imgs sel).filterMap img_src)).flatten).map
      (env.urljoin base_url)
  let l3 := ((soup.all_imgs.filter fig_alt_title).filterMap img_src).map
      (env.urljoin base_url)
  dedupFirst (l1 ++ l2 ++ l3)

/-- Embeds `find_pmc_links_in_html` (lines 91-110): hrefs containing the PMC host,
resolved against the base URL, deduped. -/
def find_pmc_links_in_html (env : Env) (base_url : String) (html : String) :
    List String :=
  let soup := env.parse html
  dedupFirst
    ((soup.hrefs.filter (fun h => strContains h "pmc.ncbi.nlm.nih.gov")).map
      (env.urljoin base_url))

/-- The per-image success test of the download loop (lines 145-150): no
exception, status 200, nonempty content. -/
def imgOk : HttpReply → Bool
  | HttpReply.exn _ => false
  | HttpReply.resp status _ _ body => status == 200 && !(body == "")

/-- The fixed ordered extension list of lines 155. -/
def known_exts : List String :=
  [".png", ".jpg", ".jpeg", ".tif", ".tiff", ".gif"]

/-- Extension inference (lines 153-158): first listed extension occurring in
the lowercased URL, defaulting to `.png`. -/
def infer_ext (img_url : String) : String :=
  let lower := lowerStr img_url
  (known_exts.find? (fun cand => strContains lower cand)).getD ".png"

/-- One saved asset: `{"url": img_url, "file": fname.name}`. -/
structure Downloaded where
  url : String
  file : String
deriving DecidableEq, Repr

/-- The image download loop (lines 143-165): `enumerate(img_urls, start=1)`,
skipping failed downloads, naming saved files `figure_<i><ext>` by the
candidate's position. -/
def download_images (env : Env) : Nat → List String → List Downloaded
  | _, [] => []
  | i, img_url :: rest =>
    if imgOk (env.net img_url) then
      ⟨img_url, "figure_" ++ toString i ++ infer_ext img_url⟩
        :: download_images env (i + 1) rest
    else
      download_images env (i + 1) rest

/-- One trace record: `{"url": ..., "final_url": ..., "status": ...}`. -/
structure TraceEntry where
  url : String
  final_url : Option String
  status : String
deriving DecidableEq, Repr

/-- The mutable crawl state threaded through `try_download_from_url`:
the visited set (as an insertion-ordered list; only membership is used),
the URL queue including its consumed prefix, and the trace. -/
structure CrawlState where
  visited : List String
  url_queue : List String
  tried_meta : List TraceEntry
deriving DecidableEq, Repr

/-- The PMC-link enqueue loop (lines 135-137): append each candidate not
already visited or queued. -/
def enqueue_new (visited : List String) : List String → List String → List String
  | q, [] => q
  | q, u :: rest =>
    enqueue_new visited (if u ∉ visited ∧ u ∉ q then q ++ [u] else q) rest

/-- Embeds `try_download_from_url` (lines 113-165): mark visited, fetch; on no
HTML record a `no_html` trace entry; otherwise record `html`, enqueue PMC
links when the resolved host is PubMed, then extract and download images
regardless of host.  Returns the downloads and the updated state. -/
def try_download_from_url (env : Env) (url : String) (st : CrawlState) :
    List Downloaded × CrawlState :=
  let visited := st.visited ++ [url]
  let r := fetch_html env url
  let final_url := r.1
  let html := r.2.1
  if pyFalsy html then
    ([], ⟨visited, st.url_queue, st.tried_meta ++ [⟨url, final_url, "no_html"⟩]⟩)
  else
    let tried := st.tried_meta ++ [⟨url, final_url, "html"⟩]
    let h := html.getD ""
    let host := lowerStr (netloc (pyOrD final_url url))
    let q :=
      if strContains host "pubmed.ncbi.nlm.nih.gov" then
        enqueue_new visited st.url_queue
          (find_pmc_links_in_html env (final_url.getD "") h)
      else st.url_queue
    (download_images env 1 (extract_img_urls_from_html env (final_url.getD "") h),
      ⟨visited, q, tried⟩)

/-- The frontier loop of `main` (lines 211-221): pop from the front by
index, skip visited entries without touching the trace, stop when something
was downloaded or the queue is exhausted.  The queue can grow while being
consumed, so the recursion carries explicit fuel; every claim is stated
either for all fuel or at a fuel large enough for the concrete run. -/
def crawl_loop (env : Env) :
    Nat → Nat → CrawlState → List Downloaded → CrawlState × List Downloaded
  | 0, _, st, dl => (st, dl)
  | fuel + 1, idx, st, dl =>
    if idx < st.url_queue.length ∧ dl = [] then
      let url := st.url_queue.getD idx ""
      if url ∈ st.visited then
        crawl_loop env fuel (idx + 1) st dl
      else
        let r := try_download_from_url env url st
        crawl_loop env fuel (idx + 1) r.2 (dl ++ r.1)
    else (st, dl)

/-- Seed-queue construction in `main` (lines 186-203): PMC article URL
first (identifier stripped of its `PMC` prefix), then DOI resolver, then
PubMed search by DOI, deduped preserving order. -/
def initial_url_queue (entry : Entry) : List String :=
  let q1 :=
    if pyTruthy entry.pmcid then
      ["https://pmc.ncbi.nlm.nih.gov/articles/PMC"
        ++ stripStr (strReplace (entry.pmcid.getD "") "PMC" "") ++ "/"]
    else []
  let q2 :=
    if pyTruthy entry.doi then
      ["https://doi.org/" ++ entry.doi.getD "",
       "https://pubmed.ncbi.nlm.nih.gov/?term=" ++ entry.doi.getD ""]
    else []
  dedupFirst (q1 ++ q2)

/-- Observable outcome of one figure run: the downloads, the final queue
(`tried_urls`), the trace, the files written (figure files, plus `meta.json`
exactly when something was downloaded — lines 223-235), and whether the run
found anything. -/
structure FigRun where
  figures : List Downloaded
  tried_urls : List String
  trace : List TraceEntry
  files : List String
  found : Bool
deriving DecidableEq, Repr

/-- Embeds `main` (lines 168-235) for a given entry, minus the argv/bibliography
plumbing: build the seed queue, run the loop from a fresh state, and write
files only on success. -/
def run_figures (env : Env) (entry : Entry) (fuel : Nat) : FigRun :=
  let r := crawl_loop env fuel 0 ⟨[], initial_url_queue entry, []⟩ []
  { figures := r.2
    tried_urls := r.1.url_queue
    trace := r.1.tried_meta
    files := r.2.map (fun d => d.file)
      ++ (if r.2.isEmpty then [] else ["meta.json"])
    found := !r.2.isEmpty }

end DF

namespace FT

/-!  Embedding of `src/bib/download_fulltext.py`. -/

/-- Embeds `fetch_html` (download_fulltext.py, lines 25-38): same contract as the
figure crawler's fetcher, with the status and content-type checks combined. -/
def fetch_html (env : Env) (url : String) :
    Option String × Option String × Option String :=
  match env.net url with
  | HttpReply.exn _ => (none, none, none)
  | HttpReply.resp status finalUrl contentType body =>
    let ctype := lowerStr contentType
    if status ≠ 200 ∨ strContains ctype "html" = false then (none, none, none)
    else (some finalUrl, some body, some ctype)

/-- Embeds `candidate_urls_for_entry` (lines 41-57): PMC URL first, then DOI
resolver, then PubMed search, deduped preserving order. -/
def candidate_urls_for_entry (entry : Entry) : List String :=
  let q1 :=
    if pyTruthy entry.pmcid then
      ["https://pmc.ncbi.nlm.nih.gov/articles/PMC"
        ++ stripStr (strReplace (entry.pmcid.getD "") "PMC" "") ++ "/"]
    else []
  let q2 :=
    if pyTruthy entry.doi then
      ["https://doi.org/" ++ entry.doi.getD "",
       "https://pubmed.ncbi.nlm.nih.gov/?term=" ++ entry.doi.getD ""]
    else []
  dedupFirst (q1 ++ q2)

/-- Embeds `find_pmc_links_in_pubmed` (lines 60-67): hrefs containing the PMC
host, resolved against the base URL, deduped. -/
def find_pmc_links_in_pubmed (env : Env) (base_url : String) (html : String) :
    List String :=
  let soup := env.parse html
  dedupFirst
    ((soup.hrefs.filter (fun h => strContains h "pmc.ncbi.nlm.nih.gov")).map
      (env.urljoin base_url))

/-- Embeds `extract_main_text_from_html` (lines 70-80): the `main-content`
element's text if that element exists, else the `<article>` text, else the
whole page's text. -/
def extract_main_text_from_html (env : Env) (html : String) : String :=
  let soup := env.parse html
  match soup.main_content with
  | some t => t
  | none =>
    match soup.article with
    | some t => t
    | none => soup.full_text

/-- One trace record of the full-text crawl:
`{"url": ..., "final_url": ..., "ctype": ctype or "unknown"}` — note there
is no status label. -/
structure FTTraceEntry where
  url : String
  final_url : Option String
  ctype : String
deriving DecidableEq, Repr

/-- State of the full-text crawl loop. -/
structure FTState where
  visited : List String
  url_queue : List String
  tried : List FTTraceEntry
deriving DecidableEq, Repr

/-- One iteration of the `main` loop (lines 107-146) on a not-yet-visited
URL: mark visited, fetch, append a trace entry, then branch on the resolved
host — PubMed search page enqueues the first `a.docsum-title` href, PubMed
article page enqueues PMC links, PMC or the recognized publisher terminates
with the page as full text, anything else is a no-op.  Returns the updated
state and the terminal `(full_html, final_used_url)` when reached. -/
def ft_step (env : Env) (url : String) (st : FTState) :
    FTState × Option (String × Option String) :=
  let visited := st.visited ++ [url]
  let r := fetch_html env url
  let final_url := r.1
  let html := r.2.1
  let ctype := r.2.2
  let tried := st.tried ++ [⟨url, final_url, pyOrD ctype "unknown"⟩]
  if pyFalsy html then
    (⟨visited, st.url_queue, tried⟩, none)
  else
    let h := html.getD ""
    let effUrl := pyOrD final_url url
    let host := lowerStr (netloc effUrl)
    if strContains host "pubmed.ncbi.nlm.nih.gov" ∧ strContains effUrl "/?term=" then
      let q :=
        match (env.parse h).docsum_title_href with
        | some (some href) =>
          if href ≠ "" then
            let art_url := env.urljoin (final_url.getD "") href
            if art_url ∉ visited ∧ art_url ∉ st.url_queue then
              st.url_queue ++ [art_url]
            else st.url_queue
          else st.url_queue
        | _ => st.url_queue
      (⟨visited, q, tried⟩, none)
    else if strContains host "pubmed.ncbi.nlm.nih.gov" then
      let q := DF.enqueue_new visited st.url_queue
        (find_pmc_links_in_pubmed env (final_url.getD "") h)
      (⟨visited, q, tried⟩, none)
    else if strContains host "pmc.ncbi.nlm.nih.gov"
        ∨ strContains host "learnmem.cshlp.org" then
      (⟨visited, st.url_queue, tried⟩, some (h, final_url))
    else
      (⟨visited, st.url_queue, tried⟩, none)

/-- The full-text frontier loop (lines 107-146): pop by index, skip visited
entries, break on the first terminal page. -/
def ft_loop (env : Env) :
    Nat → Nat → FTState → FTState × Option (String × Option String)
  | 0, _, st => (st, none)
  | fuel + 1, idx, st =>
    if idx < st.url_queue.length then
      let url := st.url_queue.getD idx ""
      if url ∈ st.visited then ft_loop env fuel (idx + 1) st
      else
        let r := ft_step env url st
        match r.2 with
        | some res => (r.1, some res)
        | none => ft_loop env fuel (idx + 1) r.1
    else (st, none)

/-- Observable outcome of one full-text run: the used URL, the final queue,
the trace, the files written (`full.html`, `full.txt`, `meta.json` on
success, nothing on failure — lines 148-167), and whether full text was
found. -/
structure FTRun where
  used_url : Option String
  tried_urls : List String
  trace : List FTTraceEntry
  files : List String
  found : Bool
deriving DecidableEq, Repr

/-- Embeds `main` (lines 83-167) for a given entry, minus the argv/bibliography
plumbing. -/
def run_fulltext (env : Env) (entry : Entry) (fuel : Nat) : FTRun :=
  let r := ft_loop env fuel 0 ⟨[], candidate_urls_for_entry entry, []⟩
  match r.2 with
  | none =>
    { used_url := none, tried_urls := r.1.url_queue, trace := r.1.tried,
      files := [], found := false }
  | some hu =>
    { used_url := hu.2, tried_urls := r.1.url_queue, trace := r.1.tried,
      files := ["full.html", "full.txt", "meta.json"], found := true }

end FT

/-!  Concrete environments used to exercise the crawlers on closed inputs. -/

/-- Seed URL A of the first-success scenario: a PubMed article page. -/
def urlA : String := "https://pubmed.ncbi.nlm.nih.gov/11/"

/-- Seed URL B: a DOI landing page that answers 404. -/
def urlB : String := "https://doi.org/10.1/b"

/-- Seed URL C: a DOI landing page that answers 404. -/
def urlC : String := "https://doi.org/10.1/c"

/-- The PMC link discovered on page A. -/
def urlD : String := "https://pmc.ncbi.nlm.nih.gov/articles/PMC7/"

/-- First figure image on page D. -/
def urlI1 : String := "https://pmc.ncbi.nlm.nih.gov/img1.png"

/-- Second figure image on page D. -/
def urlI2 : String := "https://pmc.ncbi.nlm.nih.gov/img2.png"

/-- Parse of page A: one anchor pointing at PMC, no images. -/
def soupA : Soup :=
  { emptySoup with hrefs := [urlD] }

/-- Parse of page D: two images inside `<figure>` elements (also visible to
the global image scan, with no fig-mentioning alt/title). -/
def soupD : Soup :=
  { emptySoup with
      figure_imgs := [⟨none, some urlI1, none, none⟩, ⟨none, some urlI2, none, none⟩]
      all_imgs := [⟨none, some urlI1, none, none⟩, ⟨none, some urlI2, none, none⟩] }

/-- Network and parser for the first-success scenario of the figure crawl:
A is an HTML PubMed article page linking to D, B and C answer 404, D is an
HTML PMC page with two downloadable figures. -/
def envC1 : Env :=
  { net := fun u =>
      if u = urlA then HttpReply.resp 200 urlA "text/html" "pageA"
      else if u = urlB then HttpReply.resp 404 urlB "text/html" ""
      else if u = urlC then HttpReply.resp 404 urlC "text/html" ""
      else if u = urlD then HttpReply.resp 200 urlD "text/html" "pageD"
      else if u = urlI1 then HttpReply.resp 200 urlI1 "image/png" "img-bytes-1"
      else if u = urlI2 then HttpReply.resp 200 urlI2 "image/png" "img-bytes-2"
      else HttpReply.exn "unreachable"
    parse := fun h =>
      if h = "pageA" then soupA
      else if h = "pageD" then soupD
      else emptySoup
    urljoin := urljoinModel }

/-- An article page on a host that is neither PubMed, PMC, nor the
recognized publisher. -/
def urlX : String := "https://example.com/article"

/-- The figure image on that page. -/
def urlXI : String := "https://example.com/fig1.png"

/-- Parse of the example.com page: one image inside a `<figure>`. -/
def soupX : Soup :=
  { emptySoup with figure_imgs := [⟨none, some urlXI, none, none⟩] }

/-- Network and parser for an HTML article page on an unrecognized host
whose one figure image downloads successfully. -/
def envC2 : Env :=
  { net := fun u =>
      if u = urlX then HttpReply.resp 200 urlX "text/html" "pageX"
      else if u = urlXI then HttpReply.resp 200 urlXI "image/png" "bytes"
      else HttpReply.exn "unreachable"
    parse := fun h => if h = "pageX" then soupX else emptySoup
    urljoin := urljoinModel }

/-- A PubMed search-results URL. -/
def urlS : String := "https://pubmed.ncbi.nlm.nih.gov/?term=10.1/x"

/-- The article URL behind the first search-result title link. -/
def urlArt : String := "https://pubmed.ncbi.nlm.nih.gov/12345/"

/-- Parse of the search page: the first `a.docsum-title` carries the
article href, which is also an ordinary anchor on the page. -/
def soupS : Soup :=
  { emptySoup with hrefs := [urlArt], docsum_title_href := some (some urlArt) }

/-- Network and parser for a PubMed search-results page whose first result
links to an article page. -/
def envC3 : Env :=
  { net := fun u =>
      if u = urlS then HttpReply.resp 200 urlS "text/html" "pageS"
      else HttpReply.exn "unreachable"
    parse := fun h => if h = "pageS" then soupS else emptySoup
    urljoin := urljoinModel }

/-- A URL that resolves directly to a PDF. -/
def urlP : String := "https://doi.org/10.1/pdf"

/-- Network answering a 200 `application/pdf` response. -/
def envPdf : Env :=
  { net := fun u =>
      if u = urlP then HttpReply.resp 200 urlP "application/pdf" "%PDF-1.4"
      else HttpReply.exn "unreachable"
    parse := fun _ => emptySoup
    urljoin := urljoinModel }

/-- Network answering every request with HTTP 404. -/
def envHttpErr : Env :=
  { net := fun _ => HttpReply.resp 404 "https://doi.org/10.1/x" "text/html" "Not Found"
    parse := fun _ => emptySoup
    urljoin := urljoinModel }

/-- Network raising a timeout on every request. -/
def envTransportErr : Env :=
  { net := fun _ => HttpReply.exn "timeout"
    parse := fun _ => emptySoup
    urljoin := urljoinModel }

/-- An image URL containing both `.png` and `.jpg` as substrings. -/
def urlJP : String := "https://x.org/a.png.jpg"

/-- Network serving every image request successfully. -/
def envImgOkAll : Env :=
  { net := fun u => HttpReply.resp 200 u "image/jpeg" "bytes"
    parse := fun _ => emptySoup
    urljoin := urljoinModel }

/-- First image candidate: its download answers 404. -/
def urlF1 : String := "https://x.org/f1.png"

/-- Second image candidate: its download succeeds. -/
def urlF2 : String := "https://x.org/f2.png"

/-- Network failing the first image candidate and serving the second. -/
def envC9 : Env :=
  { net := fun u =>
      if u = urlF1 then HttpReply.resp 404 urlF1 "image/png" ""
      else HttpReply.resp 200 u "image/png" "bytes"
    parse := fun _ => emptySoup
    urljoin := urljoinModel }

/-- An environment with no reachable network at all. -/
def trivialEnv : Env :=
  { net := fun _ => HttpReply.exn "no network"
    parse := fun _ => emptySoup
    urljoin := urljoinModel }

/-!  Claim C1. -/

/-- C1: the claim "for a crawl whose initial frontier is [A, B, C], where
fetching A yields zero images but the classifier discovers a new link D, and
fetching D yields two images, the crawl loop stops at D and never attempts B
or C" is false on the code: D is appended at the end of the FIFO frontier,
so B and C are attempted (and traced) before D. -/
theorem C1_counterexample :
    urlB ∈ ((DF.crawl_loop envC1 10 0 ⟨[], [urlA, urlB, urlC], []⟩ []).1.tried_meta.map
        (fun t => t.url))
      ∧ urlC ∈ ((DF.crawl_loop envC1 10 0 ⟨[], [urlA, urlB, urlC], []⟩ []).1.tried_meta.map
        (fun t => t.url)) := by
  decide

/-- C1 (amended): in the same scenario the attempts occur in strict FIFO
frontier order A, B, C, D — the discovered link D is appended after all
queued links — and the loop stops at D, the first entry to yield images,
with exactly its two figures downloaded. -/
theorem C1_first_success_fifo :
    ((DF.crawl_loop envC1 10 0 ⟨[], [urlA, urlB, urlC], []⟩ []).1.tried_meta.map
        (fun t => t.url)) = [urlA, urlB, urlC, urlD]
      ∧ (DF.crawl_loop envC1 10 0 ⟨[], [urlA, urlB, urlC], []⟩ []).2
        = [⟨urlI1, "figure_1.png"⟩, ⟨urlI2, "figure_2.png"⟩]
      ∧ (DF.crawl_loop envC1 10 0 ⟨[], [urlA, urlB, urlC], []⟩ []).1.url_queue
        = [urlA, urlB, urlC, urlD] := by
  decide

/-!  Claim C2. -/

/-- C2: the claim "for the figure crawl, terminal content (candidate image
URLs) is extracted only when the resolved host is a PMC or recognized
publisher article page" is false on the code: an HTML article page on
`example.com` — a host matching none of the recognized patterns — still has
its figure image extracted and downloaded by `try_download_from_url`. -/
theorem C2_counterexample :
    (DF.try_download_from_url envC2 urlX ⟨[], [urlX], []⟩).1
        = [⟨urlXI, "figure_1.png"⟩]
      ∧ strContains (lowerStr (netloc urlX)) "pmc.ncbi.nlm.nih.gov" = false
      ∧ strContains (lowerStr (netloc urlX)) "learnmem.cshlp.org" = false
      ∧ strContains (lowerStr (netloc urlX)) "pubmed.ncbi.nlm.nih.gov" = false := by
  decide

/-- C2 (amended): host gating of terminal content belongs to the full-text
crawl only: there, a resolved URL on a host that is neither PubMed, PMC nor
the recognized publisher yields no new links, no terminal content, and one
trace entry, so the loop advances; the figure crawl instead attempts image
extraction and download on every fetched HTML page regardless of host. -/
theorem C2_host_gating :
    (∀ (env : Env) (url : String) (st : FT.FTState) (f h c : String),
        FT.fetch_html env url = (some f, some h, some c) → h ≠ "" →
        strContains (lowerStr (netloc (pyOrD (some f) url)))
          "pubmed.ncbi.nlm.nih.gov" = false →
        strContains (lowerStr (netloc (pyOrD (some f) url)))
          "pmc.ncbi.nlm.nih.gov" = false →
        strContains (lowerStr (netloc (pyOrD (some f) url)))
          "learnmem.cshlp.org" = false →
        (FT.ft_step env url st).1.url_queue = st.url_queue
          ∧ (FT.ft_step env url st).2 = none
          ∧ (FT.ft_step env url st).1.tried
              = st.tried ++ [⟨url, some f, pyOrD (some c) "unknown"⟩])
    ∧ (∀ (env : Env) (url : String) (st : DF.CrawlState) (f h c : String),
        DF.fetch_html env url = (some f, some h, some c) → h ≠ "" →
        (DF.try_download_from_url env url st).1
          = DF.download_images env 1 (DF.extract_img_urls_from_html env f h)) := by
  constructor
  · intro env url st f h c hf hh hpub hpmc hlm
    have hfalsy : pyFalsy (some h) = false := by
      simp [pyFalsy, hh]
    refine ⟨?_, ?_, ?_⟩ <;>
      simp [FT.ft_step, hf, hfalsy, hpub, hpmc, hlm]
  · intro env url st f h c hf hh
    have hfalsy : pyFalsy (some h) = false := by
      simp [pyFalsy, hh]
    simp [DF.try_download_from_url, hf, hfalsy]

/-- C2 witness: the amended statement exercised on the `example.com`
environment. -/
theorem C2_host_gating_witness :
    ((FT.ft_step envC2 urlX ⟨[], [urlX], []⟩).1.url_queue = [urlX]
      ∧ (FT.ft_step envC2 urlX ⟨[], [urlX], []⟩).2 = none
      ∧ (FT.ft_step envC2 urlX ⟨[], [urlX], []⟩).1.tried
          = [⟨urlX, some urlX, "text/html"⟩])
    ∧ (DF.try_download_from_url envC2 urlX ⟨[], [urlX], []⟩).1
        = DF.download_images envC2 1
            (DF.extract_img_urls_from_html envC2 urlX "pageX") := by
  constructor
  · have h := C2_host_gating.1 envC2 urlX ⟨[], [urlX], []⟩ urlX "pageX" "text/html"
      (by decide) (by decide) (by decide) (by decide) (by decide)
    refine ⟨h.1, h.2.1, ?_⟩
    rw [h.2.2]
    decide
  · exact C2_host_gating.2 envC2 urlX ⟨[], [urlX], []⟩ urlX "pageX" "text/html"
      (by decide) (by decide)

/-!  Claim C3. -/

/-- C3: the claim that "both crawls" enqueue the first search-result title
link of a PubMed search-results page is false for the figure crawl: on a
search page whose first `a.docsum-title` href is present, the figure
crawler's queue is left unchanged — it has no search-page handling at all
(it only scans for PMC hrefs). -/
theorem C3_counterexample :
    (envC3.parse "pageS").docsum_title_href = some (some urlArt)
      ∧ strContains (lowerStr (netloc urlS)) "pubmed.ncbi.nlm.nih.gov" = true
      ∧ strContains urlS "/?term=" = true
      ∧ (DF.try_download_from_url envC3 urlS ⟨[], [urlS], []⟩).2.url_queue = [urlS]
      ∧ urlArt ∉ (DF.try_download_from_url envC3 urlS ⟨[], [urlS], []⟩).2.url_queue := by
  decide

/-- C3 (amended): only the full-text crawl recognizes PubMed search-results
pages: when the resolved URL is on the PubMed host and contains `/?term=`,
and the first `a.docsum-title` href is present, nonempty, and neither
visited nor queued, it is appended to the frontier and no terminal content
is produced; the figure crawl has no such handling. -/
theorem C3_search_page :
    ∀ (env : Env) (url : String) (st : FT.FTState) (f h c href : String),
      FT.fetch_html env url = (some f, some h, some c) → h ≠ "" →
      strContains (lowerStr (netloc (pyOrD (some f) url)))
        "pubmed.ncbi.nlm.nih.gov" = true →
      strContains (pyOrD (some f) url) "/?term=" = true →
      (env.parse h).docsum_title_href = some (some href) → href ≠ "" →
      env.urljoin f href ∉ st.visited ++ [url] →
      env.urljoin f href ∉ st.url_queue →
      (FT.ft_step env url st).1.url_queue = st.url_queue ++ [env.urljoin f href]
        ∧ (FT.ft_step env url st).2 = none := by
  intro env url st f h c href hf hh hpub hterm hds hhref hnv hnq
  have hfalsy : pyFalsy (some h) = false := by
    simp [pyFalsy, hh]
  constructor <;>
    simp [FT.ft_step, hf, hfalsy, hpub, hterm, hds, hhref, hnv, hnq]

/-- C3 witness: the amended statement exercised on a concrete PubMed
search-results page whose first result links to an article page. -/
theorem C3_search_page_witness :
    (FT.ft_step envC3 urlS ⟨[], [urlS], []⟩).1.url_queue = [urlS, urlArt]
      ∧ (FT.ft_step envC3 urlS ⟨[], [urlS], []⟩).2 = none := by
  have h := C3_search_page envC3 urlS ⟨[], [urlS], []⟩ urlS "pageS" "text/html" urlArt
    (by decide) (by decide) (by decide) (by decide) (by decide) (by decide)
    (by decide) (by decide)
  refine ⟨?_, h.2⟩
  rw [h.1]
  decide

/-!  Claim C4. -/

/-- C4: a citation record with neither a DOI nor a PMC identifier yields an
empty candidate list in both crawls; for every environment and every fuel,
the run then terminates immediately with an empty result, an empty trace,
and no files written, reported as not-found rather than as an error. -/
theorem C4_no_identifiers :
    ∀ (entry : Entry), pyFalsy entry.doi = true → pyFalsy entry.pmcid = true →
      DF.initial_url_queue entry = []
        ∧ FT.candidate_urls_for_entry entry = []
        ∧ (∀ (env : Env) (fuel : Nat),
            DF.run_figures env entry fuel = ⟨[], [], [], [], false⟩
              ∧ FT.run_fulltext env entry fuel = ⟨none, [], [], [], false⟩) := by
  intro entry hdoi hpmc
  have hq1 : DF.initial_url_queue entry = [] := by
    simp [DF.initial_url_queue, pyTruthy, hdoi, hpmc, dedupFirst, dedupFirstAux]
  have hq2 : FT.candidate_urls_for_entry entry = [] := by
    simp [FT.candidate_urls_for_entry, pyTruthy, hdoi, hpmc, dedupFirst, dedupFirstAux]
  refine ⟨hq1, hq2, ?_⟩
  intro env fuel
  have hl1 : DF.crawl_loop env fuel 0 ⟨[], [], []⟩ [] = (⟨[], [], []⟩, []) := by
    cases fuel <;> simp [DF.crawl_loop]
  have hl2 : FT.ft_loop env fuel 0 ⟨[], [], []⟩ = (⟨[], [], []⟩, none) := by
    cases fuel <;> simp [FT.ft_loop]
  constructor
  · simp [DF.run_figures, hq1, hl1]
  · simp [FT.run_fulltext, hq2, hl2]

/-- C4 witness: the statement exercised on the empty entry with a concrete
environment and fuel. -/
theorem C4_no_identifiers_witness :
    DF.initial_url_queue ⟨none, none⟩ = []
      ∧ FT.candidate_urls_for_entry ⟨none, none⟩ = []
      ∧ DF.run_figures trivialEnv ⟨none, none⟩ 5 = ⟨[], [], [], [], false⟩
      ∧ FT.run_fulltext trivialEnv ⟨none, none⟩ 5 = ⟨none, [], [], [], false⟩ := by
  have h := C4_no_identifiers ⟨none, none⟩ (by decide) (by decide)
  exact ⟨h.1, h.2.1, (h.2.2 trivialEnv 5).1, (h.2.2 trivialEnv 5).2⟩

/-!  Claim C5. -/

/-- Shape of one figure-crawl attempt: the attempted URL is appended to the
visited set and exactly one trace entry, carrying that URL, is appended. -/
theorem try_download_state (env : Env) (url : String) (st : DF.CrawlState) :
    ∃ fu s,
      (DF.try_download_from_url env url st).2.visited = st.visited ++ [url]
        ∧ (DF.try_download_from_url env url st).2.tried_meta
            = st.tried_meta ++ [⟨url, fu, s⟩] := by
  by_cases hp : pyFalsy (DF.fetch_html env url).2.1 = true
  · exact ⟨(DF.fetch_html env url).1, "no_html",
      by simp [DF.try_download_from_url, hp],
      by simp [DF.try_download_from_url, hp]⟩
  · exact ⟨(DF.fetch_html env url).1, "html",
      by simp [DF.try_download_from_url, hp],
      by simp [DF.try_download_from_url, hp]⟩

/-- Shape of one full-text-crawl attempt: the attempted URL is appended to
the visited set and exactly one trace entry, carrying that URL, is
appended, in every branch of the classifier. -/
theorem ft_step_state (env : Env) (url : String) (st : FT.FTState) :
    ∃ fu ct,
      (FT.ft_step env url st).1.visited = st.visited ++ [url]
        ∧ (FT.ft_step env url st).1.tried = st.tried ++ [⟨url, fu, ct⟩] := by
  refine ⟨(FT.fetch_html env url).1,
    pyOrD (FT.fetch_html env url).2.2 "unknown", ?_, ?_⟩ <;>
  · simp only [FT.ft_step]
    split
    · simp
    · split
      · simp
      · split
        · simp
        · split <;> simp

/-- One-step unfolding of the figure-crawl loop at positive fuel. -/
theorem crawl_loop_succ (env : Env) (n idx : Nat) (st : DF.CrawlState)
    (dl : List DF.Downloaded) :
    DF.crawl_loop env (n + 1) idx st dl =
      if idx < st.url_queue.length ∧ dl = [] then
        if st.url_queue.getD idx "" ∈ st.visited then
          DF.crawl_loop env n (idx + 1) st dl
        else
          DF.crawl_loop env n (idx + 1)
            (DF.try_download_from_url env (st.url_queue.getD idx "") st).2
            (dl ++ (DF.try_download_from_url env (st.url_queue.getD idx "") st).1)
      else (st, dl) := rfl

/-- One-step unfolding of the full-text-crawl loop at positive fuel. -/
theorem ft_loop_succ (env : Env) (n idx : Nat) (st : FT.FTState) :
    FT.ft_loop env (n + 1) idx st =
      if idx < st.url_queue.length then
        if st.url_queue.getD idx "" ∈ st.visited then
          FT.ft_loop env n (idx + 1) st
        else
          match (FT.ft_step env (st.url_queue.getD idx "") st).2 with
          | some res => ((FT.ft_step env (st.url_queue.getD idx "") st).1, some res)
          | none => FT.ft_loop env n (idx + 1)
              (FT.ft_step env (st.url_queue.getD idx "") st).1
      else (st, none) := rfl

/-- Invariant of the figure-crawl loop: a state whose visited list has no
duplicates and whose trace URLs equal the visited list in order keeps both
properties through any number of iterations. -/
theorem crawl_loop_inv (env : Env) :
    ∀ (fuel idx : Nat) (st : DF.CrawlState) (dl : List DF.Downloaded),
      st.visited.Nodup →
      st.tried_meta.map (fun t => t.url) = st.visited →
      ((DF.crawl_loop env fuel idx st dl).1.visited.Nodup
        ∧ (DF.crawl_loop env fuel idx st dl).1.tried_meta.map (fun t => t.url)
            = (DF.crawl_loop env fuel idx st dl).1.visited) := by
  intro fuel
  induction fuel with
  | zero =>
    intro idx st dl h1 h2
    exact ⟨h1, h2⟩
  | succ n ih =>
    intro idx st dl h1 h2
    rw [crawl_loop_succ]
    by_cases hc : idx < st.url_queue.length ∧ dl = []
    · rw [if_pos hc]
      by_cases hv : st.url_queue.getD idx "" ∈ st.visited
      · rw [if_pos hv]
        exact ih (idx + 1) st dl h1 h2
      · rw [if_neg hv]
        obtain ⟨fu, s, hvis, htr⟩ :=
          try_download_state env (st.url_queue.getD idx "") st
        have h1' :
            (DF.try_download_from_url env (st.url_queue.getD idx "") st).2.visited.Nodup := by
          rw [hvis]
          simp only [List.nodup_append]
          refine ⟨h1, List.nodup_singleton _, ?_⟩
          intro a ha hb
          rw [List.mem_singleton] at hb
          exact hv (hb ▸ ha)
        have h2' :
            (DF.try_download_from_url env (st.url_queue.getD idx "") st).2.tried_meta.map
                (fun t => t.url)
              = (DF.try_download_from_url env (st.url_queue.getD idx "") st).2.visited := by
          rw [hvis, htr, List.map_append, h2]
          simp
        exact ih (idx + 1) _ _ h1' h2'
    · rw [if_neg hc]
      exact ⟨h1, h2⟩

/-- Invariant of the full-text-crawl loop: same statement as for the figure
crawl, including the early-exit branch. -/
theorem ft_loop_inv (env : Env) :
    ∀ (fuel idx : Nat) (st : FT.FTState),
      st.visited.Nodup →
      st.tried.map (fun t => t.url) = st.visited →
      ((FT.ft_loop env fuel idx st).1.visited.Nodup
        ∧ (FT.ft_loop env fuel idx st).1.tried.map (fun t => t.url)
            = (FT.ft_loop env fuel idx st).1.visited) := by
  intro fuel
  induction fuel with
  | zero =>
    intro idx st h1 h2
    exact ⟨h1, h2⟩
  | succ n ih =>
    intro idx st h1 h2
    rw [ft_loop_succ]
    by_cases hc : idx < st.url_queue.length
    · rw [if_pos hc]
      by_cases hv : st.url_queue.getD idx "" ∈ st.visited
      · rw [if_pos hv]
        exact ih (idx + 1) st h1 h2
      · rw [if_neg hv]
        obtain ⟨fu, ct, hvis, htr⟩ :=
          ft_step_state env (st.url_queue.getD idx "") st
        have h1' :
            (FT.ft_step env (st.url_queue.getD idx "") st).1.visited.Nodup := by
          rw [hvis]
          simp only [List.nodup_append]
          refine ⟨h1, List.nodup_singleton _, ?_⟩
          intro a ha hb
          rw [List.mem_singleton] at hb
          exact hv (hb ▸ ha)
        have h2' :
            (FT.ft_step env (st.url_queue.getD idx "") st).1.tried.map (fun t => t.url)
              = (FT.ft_step env (st.url_queue.getD idx "") st).1.visited := by
          rw [hvis, htr, List.map_append, h2]
          simp
        rcases hres : (FT.ft_step env (st.url_queue.getD idx "") st).2 with _ | r
        · exact ih (idx + 1) _ h1' h2'
        · exact ⟨h1', h2'⟩
    · rw [if_neg hc]
      exact ⟨h1, h2⟩

/-- C5: in both crawls, starting from a fresh state with any seed frontier,
no URL is ever attempted twice (the visited list stays duplicate-free), the
trace URLs are exactly the visited list in attempt order, and hence the
trace length equals the number of distinct URLs actually attempted —
skipped already-visited frontier entries consume no trace slot. -/
theorem C5_no_double_fetch (env : Env) (fuel : Nat) (q0 : List String) :
    ((DF.crawl_loop env fuel 0 ⟨[], q0, []⟩ []).1.visited.Nodup
      ∧ (DF.crawl_loop env fuel 0 ⟨[], q0, []⟩ []).1.tried_meta.map (fun t => t.url)
          = (DF.crawl_loop env fuel 0 ⟨[], q0, []⟩ []).1.visited
      ∧ (DF.crawl_loop env fuel 0 ⟨[], q0, []⟩ []).1.tried_meta.length
          = (DF.crawl_loop env fuel 0 ⟨[], q0, []⟩ []).1.visited.length)
    ∧ ((FT.ft_loop env fuel 0 ⟨[], q0, []⟩).1.visited.Nodup
      ∧ (FT.ft_loop env fuel 0 ⟨[], q0, []⟩).1.tried.map (fun t => t.url)
          = (FT.ft_loop env fuel 0 ⟨[], q0, []⟩).1.visited
      ∧ (FT.ft_loop env fuel 0 ⟨[], q0, []⟩).1.tried.length
          = (FT.ft_loop env fuel 0 ⟨[], q0, []⟩).1.visited.length) := by
  have h1 := crawl_loop_inv env fuel 0 ⟨[], q0, []⟩ [] (by simp) (by simp)
  have h2 := ft_loop_inv env fuel 0 ⟨[], q0, []⟩ (by simp) (by simp)
  refine ⟨⟨h1.1, h1.2, ?_⟩, ⟨h2.1, h2.2, ?_⟩⟩
  · calc (DF.crawl_loop env fuel 0 ⟨[], q0, []⟩ []).1.tried_meta.length
        = ((DF.crawl_loop env fuel 0 ⟨[], q0, []⟩ []).1.tried_meta.map
            (fun t => t.url)).length := by simp
      _ = (DF.crawl_loop env fuel 0 ⟨[], q0, []⟩ []).1.visited.length := by rw [h1.2]
  · calc (FT.ft_loop env fuel 0 ⟨[], q0, []⟩).1.tried.length
        = ((FT.ft_loop env fuel 0 ⟨[], q0, []⟩).1.tried.map
            (fun t => t.url)).length := by simp
      _ = (FT.ft_loop env fuel 0 ⟨[], q0, []⟩).1.visited.length := by rw [h2.2]

/-!  Claim C6. -/

/-- C6: the claim that a non-HTML fetch "is recorded in the trace with
status label no_html, in both the figure crawl and the full-text crawl" is
false for the full-text crawl: on a 200 `application/pdf` response its
trace entry has no status label at all — it records the url, a null
final_url and the ctype `"unknown"` (the real content type is not even
propagated). -/
theorem C6_counterexample :
    envPdf.net urlP = HttpReply.resp 200 urlP "application/pdf" "%PDF-1.4"
      ∧ (FT.ft_step envPdf urlP ⟨[], [urlP], []⟩).1.tried.map (fun t => t.ctype)
          = ["unknown"]
      ∧ (FT.ft_step envPdf urlP ⟨[], [urlP], []⟩).1.tried.map (fun t => t.ctype)
          ≠ ["no_html"] := by
  decide

/-- C6 (amended): a fetch whose response has a non-HTML content type (for
instance `application/pdf`) never reaches the classifier in either crawl:
the figure crawl records a trace entry with status label `no_html`, null
final_url, no downloads and an unchanged queue; the full-text crawl records
a trace entry with null final_url and ctype `"unknown"` (its trace has no
status label), produces no terminal content and leaves the queue
unchanged. -/
theorem C6_non_html_skip :
    ∀ (env : Env) (url : String) (f ct body : String),
      env.net url = HttpReply.resp 200 f ct body →
      strContains (lowerStr ct) "html" = false →
      (∀ st : DF.CrawlState,
        DF.try_download_from_url env url st
          = ([], ⟨st.visited ++ [url], st.url_queue,
              st.tried_meta ++ [⟨url, none, "no_html"⟩]⟩))
      ∧ (∀ st : FT.FTState,
        FT.ft_step env url st
          = (⟨st.visited ++ [url], st.url_queue,
              st.tried ++ [⟨url, none, "unknown"⟩]⟩, none)) := by
  intro env url f ct body hnet hct
  have hdf : DF.fetch_html env url = (none, none, none) := by
    simp [DF.fetch_html, hnet, hct]
  have hft : FT.fetch_html env url = (none, none, none) := by
    simp [FT.fetch_html, hnet, hct]
  constructor
  · intro st
    simp [DF.try_download_from_url, hdf, pyFalsy]
  · intro st
    simp [FT.ft_step, hft, pyFalsy, pyOrD]

/-- C6 witness: the amended statement exercised on a direct-PDF
environment. -/
theorem C6_non_html_skip_witness :
    DF.try_download_from_url envPdf urlP ⟨[], [urlP], []⟩
        = ([], ⟨[urlP], [urlP], [⟨urlP, none, "no_html"⟩]⟩)
      ∧ FT.ft_step envPdf urlP ⟨[], [urlP], []⟩
        = (⟨[urlP], [urlP], [⟨urlP, none, "unknown"⟩]⟩, none) := by
  have h := C6_non_html_skip envPdf urlP urlP "application/pdf" "%PDF-1.4"
    (by decide) (by decide)
  constructor
  · rw [h.1 ⟨[], [urlP], []⟩]
    decide
  · rw [h.2 ⟨[], [urlP], []⟩]
    decide

/-!  Claim C7. -/

/-- C7: the claim that the fetcher's result distinguishes the failure
variants HttpError(status), TransportError(reason) and NonHtml(contentType)
and carries the status, reason, or content type of the failure is false: an
HTTP 404 response and a transport timeout both produce the very same
fetcher result `(None, None, None)`, in both crawls — no status, reason, or
content type is carried. -/
theorem C7_counterexample :
    envHttpErr.net urlB = HttpReply.resp 404 "https://doi.org/10.1/x" "text/html" "Not Found"
      ∧ envTransportErr.net urlB = HttpReply.exn "timeout"
      ∧ DF.fetch_html envHttpErr urlB = (none, none, none)
      ∧ DF.fetch_html envTransportErr urlB = (none, none, none)
      ∧ FT.fetch_html envHttpErr urlB = (none, none, none)
      ∧ FT.fetch_html envTransportErr urlB = (none, none, none) := by
  decide

/-- C7 (amended): every fetch attempt yields exactly one of two outcomes,
identically in both crawls: success — the underlying response has status
200 and an HTML content type, and the result carries the resolved URL, the
body and the lowercased content type — or failure, in which case every
failure mode (transport exception, non-200 status, non-HTML content type)
is collapsed to the single result `(None, None, None)` that carries no
status, reason, or content type. -/
theorem C7_fetch_outcome (env : Env) (url : String) :
    (DF.fetch_html env url = (none, none, none)
      ∧ FT.fetch_html env url = (none, none, none))
    ∨ (∃ f ct body, env.net url = HttpReply.resp 200 f ct body
        ∧ strContains (lowerStr ct) "html" = true
        ∧ DF.fetch_html env url = (some f, some body, some (lowerStr ct))
        ∧ FT.fetch_html env url = (some f, some body, some (lowerStr ct))) := by
  rcases hnet : env.net url with reason | ⟨s, f, ct, body⟩
  · left
    constructor <;> simp [DF.fetch_html, FT.fetch_html, hnet]
  · by_cases hs : s = 200
    · by_cases hct : strContains (lowerStr ct) "html" = true
      · right
        exact ⟨f, ct, body, by rw [hs], hct,
          by simp [DF.fetch_html, hnet, hs, hct],
          by simp [FT.fetch_html, hnet, hs, hct]⟩
      · left
        rw [Bool.not_eq_true] at hct
        constructor <;> simp [DF.fetch_html, FT.fetch_html, hnet, hs, hct]
    · left
      constructor <;> simp [DF.fetch_html, FT.fetch_html, hnet, hs]

/-!  Claim C8. -/

/-- C8: the claim "if the URL contains the substring .jpg anywhere
(case-insensitive) the file is saved with extension .jpg" is false: a URL
containing both `.png` and `.jpg` is saved with extension `.png`, because
`.png` comes first in the fixed ordered extension list. -/
theorem C8_counterexample :
    strContains (lowerStr urlJP) ".jpg" = true
      ∧ DF.download_images envImgOkAll 1 [urlJP] = [⟨urlJP, "figure_1.png"⟩]
      ∧ DF.infer_ext urlJP = ".png" := by
  decide

/-- C8 (amended): the saved extension is the first entry of the fixed
ordered list (.png, .jpg, .jpeg, .tif, .tiff, .gif) occurring as a
substring of the lowercased URL: a URL containing `.jpg` but not the
earlier-listed `.png` is saved as `.jpg`, and a URL containing none of the
listed extensions defaults to `.png`. -/
theorem C8_extension_inference (url : String) :
    (strContains (lowerStr url) ".jpg" = true →
      strContains (lowerStr url) ".png" = false →
      DF.infer_ext url = ".jpg")
    ∧ ((∀ c ∈ DF.known_exts, strContains (lowerStr url) c = false) →
      DF.infer_ext url = ".png") := by
  constructor
  · intro h1 h2
    simp [DF.infer_ext, DF.known_exts, List.find?, h1, h2]
  · intro h
    have p1 := h ".png" (by simp [DF.known_exts])
    have p2 := h ".jpg" (by simp [DF.known_exts])
    have p3 := h ".jpeg" (by simp [DF.known_exts])
    have p4 := h ".tif" (by simp [DF.known_exts])
    have p5 := h ".tiff" (by simp [DF.known_exts])
    have p6 := h ".gif" (by simp [DF.known_exts])
    simp [DF.infer_ext, DF.known_exts, List.find?, p1, p2, p3, p4, p5, p6]

/-- C8 witness: the amended statement exercised on a concrete `.JPG` URL
and on a URL with no recognized extension. -/
theorem C8_extension_inference_witness :
    DF.infer_ext "https://x.org/a.JPG" = ".jpg"
      ∧ DF.infer_ext "https://x.org/image" = ".png" :=
  ⟨(C8_extension_inference "https://x.org/a.JPG").1 (by decide) (by decide),
   (C8_extension_inference "https://x.org/image").2 (by decide)⟩

/-!  Claim C9. -/

/-- C9: the claim that saved filenames form a gapless series figure_1 ..
figure_k with one name per successfully saved asset is false: when the
first image candidate fails to download and the second succeeds, the single
saved asset is named `figure_2`, not `figure_1` — numbering follows the
candidate's position, so failures leave gaps. -/
theorem C9_counterexample :
    DF.imgOk (envC9.net urlF1) = false
      ∧ DF.imgOk (envC9.net urlF2) = true
      ∧ DF.download_images envC9 1 [urlF1, urlF2] = [⟨urlF2, "figure_2.png"⟩]
      ∧ (DF.download_images envC9 1 [urlF1, urlF2]).length = 1
      ∧ (DF.download_images envC9 1 [urlF1, urlF2]).map (fun d => d.file)
          ≠ ["figure_1.png"] := by
  decide

/-- C9 (amended): each saved figure is named `figure_<i><ext>` where `i` is
the 1-based position of its URL in the extracted candidate list, never
derived from the remote filename; an individual download failure skips
exactly that candidate and leaves sibling assets (and their position-based
names) untouched, so the saved series can have gaps. -/
theorem C9_positional_names (env : Env) (k : Nat) (urls : List String) :
    DF.download_images env k urls
      = (urls.enumFrom k).filterMap (fun p =>
          if DF.imgOk (env.net p.2) then
            some ⟨p.2, "figure_" ++ toString p.1 ++ DF.infer_ext p.2⟩
          else none) := by
  induction urls generalizing k with
  | nil => simp [DF.download_images, List.enumFrom]
  | cons u rest ih =>
    by_cases hok : DF.imgOk (env.net u) = true
    · simp [DF.download_images, List.enumFrom, hok, ih]
    · rw [Bool.not_eq_true] at hok
      simp [DF.download_images, List.enumFrom, hok, ih]

/-!  Claim C10. -/

/-- Every member of a `download_images` result comes from an image fetch
that returned HTTP 200 with a nonempty body. -/
theorem imgOk_of_mem_download_images (env : Env) :
    ∀ (k : Nat) (urls : List String) (d : DF.Downloaded),
      d ∈ DF.download_images env k urls → DF.imgOk (env.net d.url) = true := by
  intro k urls
  induction urls generalizing k with
  | nil =>
    intro d hd
    simp [DF.download_images] at hd
  | cons u rest ih =>
    intro d hd
    by_cases hok : DF.imgOk (env.net u) = true
    · rw [DF.download_images, if_pos hok] at hd
      rcases List.mem_cons.mp hd with h | h
      · rw [h]
        exact hok
      · exact ih (k + 1) d h
    · rw [Bool.not_eq_true] at hok
      rw [DF.download_images, if_neg (by simp [hok])] at hd
      exact ih (k + 1) d hd

/-- Every download produced by one page attempt satisfies the same
success condition. -/
theorem imgOk_of_mem_try_download (env : Env) (url : String) (st : DF.CrawlState)
    (d : DF.Downloaded) :
    d ∈ (DF.try_download_from_url env url st).1 →
    DF.imgOk (env.net d.url) = true := by
  intro hd
  by_cases hp : pyFalsy (DF.fetch_html env url).2.1 = true
  · simp [DF.try_download_from_url, hp] at hd
  · simp only [DF.try_download_from_url] at hd
    rw [if_neg (by simp [hp])] at hd
    exact imgOk_of_mem_download_images env 1 _ d hd

/-- Every figure in a crawl-loop result either was already in the
accumulator or comes from a successful image download. -/
theorem crawl_loop_mem (env : Env) :
    ∀ (fuel idx : Nat) (st : DF.CrawlState) (dl : List DF.Downloaded)
      (d : DF.Downloaded),
      d ∈ (DF.crawl_loop env fuel idx st dl).2 →
      d ∈ dl ∨ DF.imgOk (env.net d.url) = true := by
  intro fuel
  induction fuel with
  | zero =>
    intro idx st dl d hd
    exact Or.inl hd
  | succ n ih =>
    intro idx st dl d hd
    rw [crawl_loop_succ] at hd
    by_cases hc : idx < st.url_queue.length ∧ dl = []
    · rw [if_pos hc] at hd
      by_cases hv : st.url_queue.getD idx "" ∈ st.visited
      · rw [if_pos hv] at hd
        exact ih (idx + 1) st dl d hd
      · rw [if_neg hv] at hd
        rcases ih (idx + 1) _ _ d hd with h | h
        · rcases List.mem_append.mp h with h2 | h2
          · exact Or.inl h2
          · exact Or.inr (imgOk_of_mem_try_download env _ st d h2)
        · exact Or.inr h
    · rw [if_neg hc] at hd
      exact Or.inl hd

/-- C10: the figure crawl succeeds only on an actual download: every asset
in the loop's result comes from an image request that answered HTTP 200
with a nonempty body; a candidate list whose downloads all fail produces no
assets; and a page attempt that produces no assets leaves the result empty,
so the loop proceeds to the next frontier entry instead of stopping. -/
theorem C10_success_requires_download (env : Env) :
    (∀ (fuel : Nat) (q0 : List String) (d : DF.Downloaded),
        d ∈ (DF.crawl_loop env fuel 0 ⟨[], q0, []⟩ []).2 →
        DF.imgOk (env.net d.url) = true)
    ∧ (∀ (k : Nat) (urls : List String),
        (∀ u ∈ urls, DF.imgOk (env.net u) = false) →
        DF.download_images env k urls = [])
    ∧ (∀ (fuel idx : Nat) (st : DF.CrawlState),
        idx < st.url_queue.length →
        st.url_queue.getD idx "" ∉ st.visited →
        (DF.try_download_from_url env (st.url_queue.getD idx "") st).1 = [] →
        DF.crawl_loop env (fuel + 1) idx st []
          = DF.crawl_loop env fuel (idx + 1)
              (DF.try_download_from_url env (st.url_queue.getD idx "") st).2 []) := by
  refine ⟨?_, ?_, ?_⟩
  · intro fuel q0 d hd
    rcases crawl_loop_mem env fuel 0 ⟨[], q0, []⟩ [] d hd with h | h
    · simp at h
    · exact h
  · intro k urls
    induction urls generalizing k with
    | nil =>
      intro _
      rfl
    | cons u rest ih =>
      intro hall
      rw [DF.download_images, if_neg (by simp [hall u (by simp)])]
      exact ih (k + 1) (fun v hv => hall v (by simp [hv]))
  · intro fuel idx st hidx hv hempty
    rw [crawl_loop_succ, if_pos ⟨hidx, rfl⟩, if_neg hv, hempty, List.append_nil]

/-- C10 witness: the parts of the statement exercised on concrete
environments — a successful figure download, an all-failing candidate list,
and a page attempt with no downloads after which the loop continues. -/
theorem C10_success_requires_download_witness :
    DF.imgOk (envC2.net urlXI) = true
      ∧ DF.download_images envC9 2 [urlF1] = []
      ∧ DF.crawl_loop envPdf 4 0 ⟨[], [urlP], []⟩ []
          = DF.crawl_loop envPdf 3 1
              (DF.try_download_from_url envPdf urlP ⟨[], [urlP], []⟩).2 [] := by
  refine ⟨?_, ?_, ?_⟩
  · exact (C10_success_requires_download envC2).1 5 [urlX] ⟨urlXI, "figure_1.png"⟩
      (by decide)
  · exact (C10_success_requires_download envC9).2.1 2 [urlF1] (by decide)
  · exact (C10_success_requires_download envPdf).2.2 3 0 ⟨[], [urlP], []⟩
      (by decide) (by decide) (by decide)

end Bib
